import Mathlib

/-!
Shallow embedding of the small HTTP services in this repository: Google Drive
upload / grant-access endpoints and a Razorpay order-creation endpoint, in four
variants:

* `src/index.js`, first document ("env-JSON" variant): service account from an
  environment variable, unbounded in-memory multer storage, no folder resolver.
* `src/index.js`, second document ("OAuth" variant): OAuth token pair,
  `ensureAuthed` guard, `resolveParentFolder`, 25 MB in-memory multer cap.
* `src/unnamed/part_000` ("My-Drive" variant): service account key file,
  `resolveParentFolder`, 25 MB in-memory multer cap.
* `src/unnamed/part_001` ("disk-tmp" variant): multer disk storage under
  `uploads/`, temp file unlinked on success and on failure.

Remote Drive metadata is modelled as a partial map from file id to metadata
(`none` models a `files.get` that throws: not found / no permission).  Provider
responses that the handlers merely relay are passed in as `Except` parameters.
Each handler returns its HTTP outcome together with the list of downstream
provider calls it issued, so "no provider call is attempted" is the emitted
call list being empty.
-/

set_option autoImplicit false

namespace Check

/-- MIME type Drive uses for folders (`application/vnd.google-apps.folder`). -/
def folderMimeType : String := "application/vnd.google-apps.folder"

/-- Metadata returned by `drive.files.get` with fields
`id,name,mimeType,shortcutDetails`; `shortcutTarget` models
`shortcutDetails?.targetId`. -/
structure FileMeta where
  id : String
  name : String
  mimeType : String
  shortcutTarget : Option String
deriving Repr, DecidableEq

/-- The remote metadata store: `none` models a `files.get` call that throws
(file not found or no permission). -/
def MetaStore : Type := String → Option FileMeta

/-- Data returned by `drive.files.create` / the follow-up `drive.files.get`
with fields `id,name,webViewLink`. -/
structure DriveFileData where
  id : String
  name : String
  webViewLink : Option String
deriving Repr, DecidableEq

/-- Downstream Drive calls issued by the resolver and the upload handler. -/
inductive DriveCall where
  | filesGet (fileId : String)
  | filesCreate (fileName : String) (parent : String)
deriving Repr, DecidableEq

/-- Whether a Drive call is a file-creation call. -/
def DriveCall.isCreate : DriveCall → Bool
  | .filesCreate _ _ => true
  | .filesGet _ => false

/-- Errors thrown by `resolveParentFolder` in the OAuth variant:
a failing `files.get` propagates (modelled as `fetchFailed`),
`'Shortcut target is not a folder'` and `'Provided ID is not a folder'`
are the two explicit throws. -/
inductive ResolveError where
  | fetchFailed (fileId : String)
  | shortcutTargetNotFolder
  | notAFolder
deriving Repr, DecidableEq

/-- `resolveParentFolder` (src/index.js, OAuth variant, lines 299-323; the
My-Drive variant differs only in re-wrapping fetch errors).  Fetches metadata
for the input id; if `shortcutDetails?.targetId` is present it fetches the
target and returns the target's id provided the target is a folder, otherwise
returns the input's own id provided it is a folder.  Also returns the list of
`files.get` calls issued. -/
def resolveParentFolder (store : MetaStore) (folderIdInput : String) :
    Except ResolveError String × List DriveCall :=
  match store folderIdInput with
  | none => (.error (.fetchFailed folderIdInput), [.filesGet folderIdInput])
  | some meta =>
    match meta.shortcutTarget with
    | some targetId =>
      match store targetId with
      | none =>
        (.error (.fetchFailed targetId),
         [.filesGet folderIdInput, .filesGet targetId])
      | some target =>
        if target.mimeType = folderMimeType then
          (.ok target.id, [.filesGet folderIdInput, .filesGet targetId])
        else
          (.error .shortcutTargetNotFolder,
           [.filesGet folderIdInput, .filesGet targetId])
    | none =>
      if meta.mimeType = folderMimeType then
        (.ok meta.id, [.filesGet folderIdInput])
      else
        (.error .notAFolder, [.filesGet folderIdInput])

/-- Provider invariant of the Drive API: `files.get(id)` returns metadata whose
`id` field is the requested id, and a folder (`mimeType` =
`application/vnd.google-apps.folder`) is not itself a shortcut. -/
def WellFormedStore (store : MetaStore) : Prop :=
  ∀ i m, store i = some m →
    m.id = i ∧ (m.mimeType = folderMimeType → m.shortcutTarget = none)

/-- JavaScript truthiness of an optional string field
(`undefined` and `''` are falsy). -/
def jsTruthyStr : Option String → Bool
  | none => false
  | some s => s != ""

/-- JavaScript `a || b` on an optional string `a` (used for
`req.body.desiredFileName || req.file.originalname` and
`webViewLink || fallback`). -/
def jsOrStr (a : Option String) (b : String) : String :=
  match a with
  | none => b
  | some s => if s = "" then b else s

/-- The deterministic viewer URL the handlers fall back to when the provider
reports no `webViewLink`. -/
def fallbackViewLink (id : String) : String :=
  "https://drive.google.com/file/d/" ++ id ++ "/view"

/-! ## Credential state (OAuth variant) -/

/-- The OAuth2 client's credential object; `refreshToken` models the
`refresh_token` field (possibly absent). -/
structure OAuthCredentials where
  refreshToken : Option String
deriving Repr, DecidableEq

/-- `hasRefreshToken` (src/index.js line 252):
`!!(oauth2Client.credentials && oauth2Client.credentials.refresh_token)`;
an absent credential object, an absent field and the empty string are falsy. -/
def hasRefreshToken (creds : Option OAuthCredentials) : Bool :=
  match creds with
  | none => false
  | some c => jsTruthyStr c.refreshToken

/-! ## Multer configuration (payload intake) -/

/-- Where multer keeps the request payload. -/
inductive StorageKind where
  | memory
  | disk
deriving Repr, DecidableEq

/-- A multer configuration: storage kind and the optional `limits.fileSize`
cap in bytes (`none` means no cap). -/
structure MulterConfig where
  storage : StorageKind
  fileSizeLimit : Option Nat
deriving Repr, DecidableEq

/-- env-JSON variant (src/index.js line 18):
`multer({ storage: multer.memoryStorage() })` — no size cap. -/
def uploadConfigEnvJson : MulterConfig :=
  { storage := .memory, fileSizeLimit := none }

/-- OAuth variant (src/index.js lines 188-191):
in-memory storage with `limits: { fileSize: 25 * 1024 * 1024 }`. -/
def uploadConfigOAuth : MulterConfig :=
  { storage := .memory, fileSizeLimit := some (25 * 1024 * 1024) }

/-- My-Drive variant (src/unnamed/part_000 lines 21-24):
in-memory storage with `limits: { fileSize: 25 * 1024 * 1024 }`. -/
def uploadConfigMyDrive : MulterConfig :=
  { storage := .memory, fileSizeLimit := some (25 * 1024 * 1024) }

/-- disk-tmp variant (src/unnamed/part_001 line 11):
`multer({ dest: 'uploads/' })` — disk storage, no size cap. -/
def uploadConfigDiskTmp : MulterConfig :=
  { storage := .disk, fileSizeLimit := none }

/-- Whether multer lets a payload of the given size through to the route
handler: with a `fileSize` limit, larger payloads are aborted with a
`LIMIT_FILE_SIZE` error before the handler runs. -/
def multerAccepts (cfg : MulterConfig) (size : Nat) : Bool :=
  match cfg.fileSizeLimit with
  | none => true
  | some limit => decide (size ≤ limit)

/-! ## Upload endpoint (OAuth variant) -/

/-- The `req.file` object multer hands to the handler (in-memory variants). -/
structure UploadedFile where
  originalname : String
  mimetype : String
  size : Nat
deriving Repr, DecidableEq

/-- HTTP outcomes of the OAuth variant upload route. -/
inductive UploadResp where
  | unauthorized
  | noFile
  | missingFolderId
  | uploadError
  | payloadTooLarge
  | ok (id : String) (name : String) (webViewLink : String)
deriving Repr, DecidableEq

/-- POST /upload handler of the OAuth variant (src/index.js lines 326-361).
`creds` is the OAuth client state, `store` the remote metadata, `driveFolderId`
the `DRIVE_FOLDER_ID` environment value, and `createResp` / `afterCreateMeta`
the provider responses to `drive.files.create` and the follow-up
`drive.files.get` (an `error` value models a throwing call).  Returns the HTTP
outcome and the Drive calls issued. -/
def uploadHandler (creds : Option OAuthCredentials) (store : MetaStore)
    (driveFolderId : Option String) (reqFile : Option UploadedFile)
    (desiredFileName : Option String) (createResp : Except Unit DriveFileData)
    (afterCreateMeta : Except Unit DriveFileData) :
    UploadResp × List DriveCall :=
  if !(hasRefreshToken creds) then (.unauthorized, [])
  else
    match reqFile with
    | none => (.noFile, [])
    | some f =>
      if !(jsTruthyStr driveFolderId) then (.missingFolderId, [])
      else
        let fid := driveFolderId.getD ""
        let r := resolveParentFolder store fid
        match r.1 with
        | .error _ => (.uploadError, r.2)
        | .ok parentId =>
          let fileName := jsOrStr desiredFileName f.originalname
          match createResp with
          | .error _ => (.uploadError, r.2 ++ [.filesCreate fileName parentId])
          | .ok created =>
            match afterCreateMeta with
            | .error _ =>
              (.uploadError,
               r.2 ++ [.filesCreate fileName parentId, .filesGet created.id])
            | .ok m =>
              (.ok m.id m.name (jsOrStr m.webViewLink (fallbackViewLink m.id)),
               r.2 ++ [.filesCreate fileName parentId, .filesGet created.id])

/-- The upload route including the multer middleware: an over-limit payload is
aborted before the handler runs, so no Drive call is issued. -/
def uploadRoute (cfg : MulterConfig) (creds : Option OAuthCredentials)
    (store : MetaStore) (driveFolderId : Option String)
    (reqFile : Option UploadedFile) (desiredFileName : Option String)
    (createResp : Except Unit DriveFileData)
    (afterCreateMeta : Except Unit DriveFileData) :
    UploadResp × List DriveCall :=
  match reqFile with
  | some f =>
    if multerAccepts cfg f.size then
      uploadHandler creds store driveFolderId (some f) desiredFileName
        createResp afterCreateMeta
    else
      (.payloadTooLarge, [])
  | none =>
    uploadHandler creds store driveFolderId none desiredFileName
      createResp afterCreateMeta

/-! ## Grant-access endpoint (all four variants) -/

/-- A concrete metadata store with one plain folder, used to evaluate the
resolver theorems on concrete input. -/
def storeDir : MetaStore :=
  fun i =>
    if i = "dir1" then
      some { id := "dir1", name := "Folder", mimeType := folderMimeType,
             shortcutTarget := none }
    else none

/-- A concrete metadata store with a shortcut pointing at a non-folder. -/
def storeShortcutDoc : MetaStore :=
  fun i =>
    if i = "sc1" then
      some { id := "sc1", name := "Shortcut",
             mimeType := "application/vnd.google-apps.shortcut",
             shortcutTarget := some "doc1" }
    else if i = "doc1" then
      some { id := "doc1", name := "Doc", mimeType := "application/pdf",
             shortcutTarget := none }
    else none

/-- A concrete metadata store with a shortcut pointing at a folder. -/
def storeShortcutDir : MetaStore :=
  fun i =>
    if i = "sc2" then
      some { id := "sc2", name := "Shortcut",
             mimeType := "application/vnd.google-apps.shortcut",
             shortcutTarget := some "dir2" }
    else if i = "dir2" then
      some { id := "dir2", name := "Folder", mimeType := folderMimeType,
             shortcutTarget := none }
    else none

/-- The argument record of a `drive.permissions.create` call:
`fileId`, the request body fields (`type`, `role`, `emailAddress`), and the
optional `sendNotificationEmail` / `supportsAllDrives` options (`none` when
the source omits the option, leaving the provider default in force). -/
structure GrantCall where
  fileId : String
  permType : String
  role : String
  emailAddress : String
  sendNotificationEmail : Option Bool
  supportsAllDrives : Option Bool
deriving Repr, DecidableEq

/-- HTTP outcomes of the grant-access routes. -/
inductive GrantResp where
  | unauthorized
  | missingFields
  | grantError
  | ok (message : String)
deriving Repr, DecidableEq

/-- POST /grant-access of the env-JSON variant (src/index.js lines 92-119):
validates `fileId` and `email`, then calls `drive.permissions.create` with
`type:'user', role:'reader'` and no `sendNotificationEmail` option. -/
def grantAccessEnvJson (fileId email : Option String)
    (providerResp : Except Unit Unit) : GrantResp × List GrantCall :=
  if !(jsTruthyStr fileId) || !(jsTruthyStr email) then (.missingFields, [])
  else
    let f := fileId.getD ""
    let e := email.getD ""
    let call : GrantCall :=
      { fileId := f, permType := "user", role := "reader", emailAddress := e,
        sendNotificationEmail := none, supportsAllDrives := none }
    match providerResp with
    | .error _ => (.grantError, [call])
    | .ok _ => (.ok ("Access granted to " ++ e), [call])

/-- POST /grant-access of the OAuth variant (src/index.js lines 364-385):
`ensureAuthed` guard, then `drive.permissions.create` with
`sendNotificationEmail: false` and `supportsAllDrives: true`. -/
def grantAccessOAuth (creds : Option OAuthCredentials)
    (fileId email : Option String) (providerResp : Except Unit Unit) :
    GrantResp × List GrantCall :=
  if !(hasRefreshToken creds) then (.unauthorized, [])
  else if !(jsTruthyStr fileId) || !(jsTruthyStr email) then (.missingFields, [])
  else
    let f := fileId.getD ""
    let e := email.getD ""
    let call : GrantCall :=
      { fileId := f, permType := "user", role := "reader", emailAddress := e,
        sendNotificationEmail := some false, supportsAllDrives := some true }
    match providerResp with
    | .error _ => (.grantError, [call])
    | .ok _ => (.ok ("Access granted to " ++ e), [call])

/-- POST /grant-access of the My-Drive variant (src/unnamed/part_000 lines
155-189): like the env-JSON variant but with `sendNotificationEmail: false`
and `supportsAllDrives: true`. -/
def grantAccessMyDrive (fileId email : Option String)
    (providerResp : Except Unit Unit) : GrantResp × List GrantCall :=
  if !(jsTruthyStr fileId) || !(jsTruthyStr email) then (.missingFields, [])
  else
    let f := fileId.getD ""
    let e := email.getD ""
    let call : GrantCall :=
      { fileId := f, permType := "user", role := "reader", emailAddress := e,
        sendNotificationEmail := some false, supportsAllDrives := some true }
    match providerResp with
    | .error _ => (.grantError, [call])
    | .ok _ => (.ok ("Access granted to " ++ e), [call])

/-- POST /grant-access of the disk-tmp variant (src/unnamed/part_001 lines
76-101): identical call shape to the env-JSON variant — no
`sendNotificationEmail` option is passed. -/
def grantAccessDiskTmp (fileId email : Option String)
    (providerResp : Except Unit Unit) : GrantResp × List GrantCall :=
  if !(jsTruthyStr fileId) || !(jsTruthyStr email) then (.missingFields, [])
  else
    let f := fileId.getD ""
    let e := email.getD ""
    let call : GrantCall :=
      { fileId := f, permType := "user", role := "reader", emailAddress := e,
        sendNotificationEmail := none, supportsAllDrives := none }
    match providerResp with
    | .error _ => (.grantError, [call])
    | .ok _ => (.ok ("Access granted to " ++ e), [call])

/-! ## Upload endpoint (disk-tmp variant) -/

/-- The `req.file` object multer hands to the handler with disk storage:
the payload has already been written to `path` under `uploads/`. -/
structure DiskFile where
  originalname : String
  mimetype : String
  path : String
deriving Repr, DecidableEq

/-- `fs.unlinkSync`: remove a path from the file system (modelled as the
list of existing temp-file paths). -/
def fsUnlink (fs : List String) (p : String) : List String :=
  fs.filter (fun q => q != p)

/-- HTTP outcomes of the disk-tmp upload route. -/
inductive DiskUploadResp where
  | noFile
  | uploadError
  | ok (id : String) (name : String) (webViewLink : String)
deriving Repr, DecidableEq

/-- POST /upload of the disk-tmp variant (src/unnamed/part_001 lines 28-73).
`fs` is the file-system state after multer wrote the temp copy (so
`req.file.path` is in it whenever a file was uploaded); the handler streams
the temp copy to `drive.files.create` and unlinks it afterwards — on the
success path right after the create, on the failure path inside the catch
block.  Returns the HTTP outcome and the final file-system state. -/
def diskUploadHandler (fs : List String) (reqFile : Option DiskFile)
    (createResp : Except Unit DriveFileData) :
    DiskUploadResp × List String :=
  match reqFile with
  | none => (.noFile, fs)
  | some f =>
    match createResp with
    | .ok d =>
      (.ok d.id d.name (jsOrStr d.webViewLink (fallbackViewLink d.id)),
       fsUnlink fs f.path)
    | .error _ => (.uploadError, fsUnlink fs f.path)

/-! ## Razorpay order creation -/

/-- A JavaScript request-body field value, as far as the handlers look at it:
absent, a string, or a number. -/
inductive JsVal where
  | undef
  | str (s : String)
  | num (n : Int)
deriving Repr, DecidableEq

/-- JavaScript truthiness: `undefined`, `''` and `0` are falsy. -/
def JsVal.truthy : JsVal → Bool
  | .undef => false
  | .str s => s != ""
  | .num n => n != 0

/-- The options record passed to `razorpay.orders.create`
(src/index.js lines 130-135): `amount`, `currency: 'INR'`,
`receipt: orderId`, `payment_capture: 1`. -/
structure OrderOptions where
  amount : JsVal
  currency : String
  receipt : JsVal
  paymentCapture : Int
deriving Repr, DecidableEq

/-- HTTP outcomes of the create-order route. -/
inductive OrderResp where
  | missingFields
  | orderError
  | ok (order : String)
deriving Repr, DecidableEq

/-- POST /create-razorpay-order (src/index.js lines 122-144; identical logic
in src/unnamed/part_000 lines 208-231): `if (!orderId || !amount)` yields the
400 validation error with no provider call, otherwise the provider response
(an opaque order object) is relayed. -/
def createOrderHandler (orderId amount : JsVal)
    (providerResp : Except Unit String) : OrderResp × List OrderOptions :=
  if !(orderId.truthy) || !(amount.truthy) then (.missingFields, [])
  else
    let options : OrderOptions :=
      { amount := amount, currency := "INR", receipt := orderId,
        paymentCapture := 1 }
    match providerResp with
    | .ok order => (.ok order, [options])
    | .error _ => (.orderError, [options])

/-! ## Helper lemmas -/

theorem resolveParentFolder_plain_eq (store : MetaStore) (i : String)
    (meta : FileMeta) (hm : store i = some meta)
    (hns : meta.shortcutTarget = none) (hk : meta.mimeType = folderMimeType) :
    resolveParentFolder store i = (.ok meta.id, [.filesGet i]) := by
  unfold resolveParentFolder
  rw [hm]
  simp [hns, hk]

theorem resolveParentFolder_shortcut_folder_eq (store : MetaStore)
    (i t : String) (meta target : FileMeta) (hm : store i = some meta)
    (hs : meta.shortcutTarget = some t) (ht : store t = some target)
    (hk : target.mimeType = folderMimeType) :
    resolveParentFolder store i =
      (.ok target.id, [.filesGet i, .filesGet t]) := by
  unfold resolveParentFolder
  rw [hm]
  simp [hs, ht, hk]

theorem resolveParentFolder_shortcut_nonfolder_eq (store : MetaStore)
    (i t : String) (meta target : FileMeta) (hm : store i = some meta)
    (hs : meta.shortcutTarget = some t) (ht : store t = some target)
    (hk : target.mimeType ≠ folderMimeType) :
    resolveParentFolder store i =
      (.error .shortcutTargetNotFolder, [.filesGet i, .filesGet t]) := by
  unfold resolveParentFolder
  rw [hm]
  simp [hs, ht, hk]

theorem resolveParentFolder_trace_no_create (store : MetaStore) (i : String) :
    ∀ c ∈ (resolveParentFolder store i).2, c.isCreate = false := by
  intro c hc
  unfold resolveParentFolder at hc
  split at hc
  · simp at hc
    subst hc
    rfl
  · split at hc
    · split at hc
      · simp at hc
        rcases hc with hc | hc <;> subst hc <;> rfl
      · split at hc <;> simp at hc <;> rcases hc with hc | hc <;> subst hc <;> rfl
    · split at hc <;> simp at hc <;> subst hc <;> rfl

theorem resolveParentFolder_ok_inversion (store : MetaStore) (x y : String)
    (h : (resolveParentFolder store x).1 = .ok y) :
    (∃ meta, store x = some meta ∧ meta.shortcutTarget = none ∧
      meta.mimeType = folderMimeType ∧ meta.id = y) ∨
    (∃ meta t target, store x = some meta ∧ meta.shortcutTarget = some t ∧
      store t = some target ∧ target.mimeType = folderMimeType ∧
      target.id = y) := by
  unfold resolveParentFolder at h
  split at h
  · simp at h
  · rename_i meta hx
    split at h
    · rename_i t hs
      split at h
      · simp at h
      · rename_i target ht
        split at h
        · rename_i hk
          simp at h
          exact Or.inr ⟨meta, t, target, hx, hs, ht, hk, h⟩
        · simp at h
    · rename_i hs
      split at h
      · rename_i hk
        simp at h
        exact Or.inl ⟨meta, hx, hs, hk, h⟩
      · simp at h

theorem uploadHandler_no_create_of_resolve_error (creds : Option OAuthCredentials)
    (store : MetaStore) (driveFolderId : Option String)
    (reqFile : Option UploadedFile) (desiredFileName : Option String)
    (createResp afterCreateMeta : Except Unit DriveFileData) (e : ResolveError)
    (herr : (resolveParentFolder store (driveFolderId.getD "")).1 = .error e) :
    ∀ c ∈ (uploadHandler creds store driveFolderId reqFile desiredFileName
        createResp afterCreateMeta).2, c.isCreate = false := by
  intro c hc
  unfold uploadHandler at hc
  split at hc
  · simp at hc
  · split at hc
    · simp at hc
    · split at hc
      · simp at hc
      · simp only [herr] at hc
        exact resolveParentFolder_trace_no_create store (driveFolderId.getD "") c hc

theorem jsOrStr_ne_empty (a : Option String) (b : String) (hb : b ≠ "") :
    jsOrStr a b ≠ "" := by
  rcases a with _ | s
  · exact hb
  · by_cases hs : s = ""
    · simp only [jsOrStr, hs, if_true]
      exact hb
    · simp only [jsOrStr, hs, if_false]
      exact hs

theorem fallbackViewLink_ne_empty (i : String) : fallbackViewLink i ≠ "" := by
  intro hh
  have hlen := congrArg String.length hh
  rw [fallbackViewLink] at hlen
  rw [String.length_append, String.length_append] at hlen
  have h32 : ("https://drive.google.com/file/d/" : String).length = 32 := rfl
  have h5 : ("/view" : String).length = 5 := rfl
  have h0 : ("" : String).length = 0 := rfl
  rw [h32, h5, h0] at hlen
  omega

theorem storeDir_wf : WellFormedStore storeDir := by
  intro i m h
  unfold storeDir at h
  split at h
  · next hc =>
    injection h with h
    subst h
    exact ⟨hc.symm, fun _ => rfl⟩
  · exact Option.noConfusion h

theorem storeShortcutDir_wf : WellFormedStore storeShortcutDir := by
  intro i m h
  unfold storeShortcutDir at h
  split at h
  · next hc =>
    injection h with h
    subst h
    exact ⟨hc.symm, fun hf => absurd hf (by decide)⟩
  · split at h
    · next hc =>
      injection h with h
      subst h
      exact ⟨hc.symm, fun _ => rfl⟩
    · exact Option.noConfusion h

/-! ## Claim theorems -/

/-- Claim C1: when the fetched metadata carries a shortcut target, the
resolver fetches the target's metadata; if the target's kind is not a folder,
resolution fails with the InvalidTarget error (`shortcutTargetNotFolder`) and
the upload route performs no file-creation call; otherwise it returns the
target's id. -/
theorem claim1_shortcut_resolution (store : MetaStore) (input targetId : String)
    (meta target : FileMeta) (hm : store input = some meta)
    (hs : meta.shortcutTarget = some targetId)
    (ht : store targetId = some target) :
    DriveCall.filesGet targetId ∈ (resolveParentFolder store input).2 ∧
    (target.mimeType ≠ folderMimeType →
      (resolveParentFolder store input).1 = .error .shortcutTargetNotFolder ∧
      ∀ (creds : Option OAuthCredentials) (reqFile : Option UploadedFile)
        (desiredFileName : Option String)
        (createResp afterCreateMeta : Except Unit DriveFileData)
        (c : DriveCall),
        c ∈ (uploadHandler creds store (some input) reqFile desiredFileName
            createResp afterCreateMeta).2 → c.isCreate = false) ∧
    (target.mimeType = folderMimeType →
      (resolveParentFolder store input).1 = .ok target.id) := by
  refine ⟨?_, ?_, ?_⟩
  · by_cases hk : target.mimeType = folderMimeType
    · rw [resolveParentFolder_shortcut_folder_eq store input targetId meta
        target hm hs ht hk]
      simp
    · rw [resolveParentFolder_shortcut_nonfolder_eq store input targetId meta
        target hm hs ht hk]
      simp
  · intro hk
    have heq := resolveParentFolder_shortcut_nonfolder_eq store input targetId
      meta target hm hs ht hk
    refine ⟨?_, ?_⟩
    · rw [heq]
    · intro creds reqFile desiredFileName createResp afterCreateMeta c hc
      refine uploadHandler_no_create_of_resolve_error creds store (some input)
        reqFile desiredFileName createResp afterCreateMeta
        .shortcutTargetNotFolder ?_ c hc
      rw [Option.getD_some]
      exact congrArg Prod.fst heq
  · intro hk
    rw [resolveParentFolder_shortcut_folder_eq store input targetId meta
      target hm hs ht hk]

/-- Claim C1 witness: in a concrete store whose shortcut points at a PDF, the
target metadata is fetched and resolution fails with the InvalidTarget
error. -/
theorem claim1_shortcut_resolution_witness :
    DriveCall.filesGet "doc1" ∈ (resolveParentFolder storeShortcutDoc "sc1").2 ∧
    (resolveParentFolder storeShortcutDoc "sc1").1 =
      .error .shortcutTargetNotFolder :=
  ⟨(claim1_shortcut_resolution storeShortcutDoc "sc1" "doc1"
      { id := "sc1", name := "Shortcut",
        mimeType := "application/vnd.google-apps.shortcut",
        shortcutTarget := some "doc1" }
      { id := "doc1", name := "Doc", mimeType := "application/pdf",
        shortcutTarget := none } rfl rfl rfl).1,
   ((claim1_shortcut_resolution storeShortcutDoc "sc1" "doc1"
      { id := "sc1", name := "Shortcut",
        mimeType := "application/vnd.google-apps.shortcut",
        shortcutTarget := some "doc1" }
      { id := "doc1", name := "Doc", mimeType := "application/pdf",
        shortcutTarget := none } rfl rfl rfl).2.1 (by decide)).1⟩

/-- Claim C2: a POST /upload received while `isAuthorized()` is false (no
refresh-capable token loaded) gets the 401 Unauthorized response and no
downstream Drive call is attempted (empty call list). -/
theorem claim2_upload_unauthorized (creds : Option OAuthCredentials)
    (store : MetaStore) (driveFolderId : Option String)
    (reqFile : Option UploadedFile) (desiredFileName : Option String)
    (createResp afterCreateMeta : Except Unit DriveFileData)
    (h : hasRefreshToken creds = false) :
    uploadHandler creds store driveFolderId reqFile desiredFileName createResp
      afterCreateMeta = (.unauthorized, []) := by
  unfold uploadHandler
  rw [h]
  rfl

/-- Claim C2 witness: with no credentials loaded, the upload handler answers
Unauthorized and issues no Drive call. -/
theorem claim2_upload_unauthorized_witness :
    uploadHandler none (fun _ => none : MetaStore) none none none (.error ())
      (.error ()) = (.unauthorized, []) :=
  claim2_upload_unauthorized none (fun _ => none : MetaStore) none none none
    (.error ()) (.error ()) rfl

/-- Claim C3: a successful upload (usable credential, resolvable directory,
non-empty payload, provider calls succeed) returns the file id and a
non-empty view link; the call trace shows exactly one follow-up metadata
fetch after the create call, and if the link is still absent the
deterministic URL built from the file id is returned. -/
theorem claim3_upload_success_view_link (creds : Option OAuthCredentials)
    (store : MetaStore) (fid : String) (f : UploadedFile)
    (desiredFileName : Option String) (created m : DriveFileData)
    (parentId : String) (hauth : hasRefreshToken creds = true)
    (_hpay : 0 < f.size) (hfid : fid ≠ "")
    (hres : (resolveParentFolder store fid).1 = .ok parentId) :
    (∃ link, (uploadHandler creds store (some fid) (some f) desiredFileName
        (.ok created) (.ok m)).1 = .ok m.id m.name link ∧ link ≠ "") ∧
    (uploadHandler creds store (some fid) (some f) desiredFileName
        (.ok created) (.ok m)).2 =
      (resolveParentFolder store fid).2 ++
        [.filesCreate (jsOrStr desiredFileName f.originalname) parentId,
         .filesGet created.id] ∧
    ((m.webViewLink = none ∨ m.webViewLink = some "") →
      (uploadHandler creds store (some fid) (some f) desiredFileName
          (.ok created) (.ok m)).1 = .ok m.id m.name (fallbackViewLink m.id)) := by
  have hred : uploadHandler creds store (some fid) (some f) desiredFileName
      (.ok created) (.ok m) =
      (.ok m.id m.name (jsOrStr m.webViewLink (fallbackViewLink m.id)),
       (resolveParentFolder store fid).2 ++
         [.filesCreate (jsOrStr desiredFileName f.originalname) parentId,
          .filesGet created.id]) := by
    unfold uploadHandler
    rw [hauth]
    simp [jsTruthyStr, hfid, hres]
  refine ⟨⟨jsOrStr m.webViewLink (fallbackViewLink m.id), ?_, ?_⟩, ?_, ?_⟩
  · rw [hred]
  · exact jsOrStr_ne_empty _ _ (fallbackViewLink_ne_empty m.id)
  · rw [hred]
  · intro hcase
    rw [hred]
    rcases hcase with hc | hc <;> simp [jsOrStr, hc]

/-- Claim C3 witness: the end-to-end scenario — payload "hello" (5 bytes),
name override "greeting.txt", authorized credential, directory resolving
directly, provider omitting the view link — returns the id with the
deterministic fallback URL. -/
theorem claim3_upload_success_view_link_witness :
    (uploadHandler (some { refreshToken := some "tok" }) storeDir (some "dir1")
        (some { originalname := "hello.txt", mimetype := "text/plain",
                size := 5 })
        (some "greeting.txt")
        (.ok { id := "newid", name := "greeting.txt", webViewLink := none })
        (.ok { id := "newid", name := "greeting.txt",
               webViewLink := none })).1 =
      .ok "newid" "greeting.txt" (fallbackViewLink "newid") :=
  (claim3_upload_success_view_link (some { refreshToken := some "tok" })
      storeDir "dir1"
      { originalname := "hello.txt", mimetype := "text/plain", size := 5 }
      (some "greeting.txt")
      { id := "newid", name := "greeting.txt", webViewLink := none }
      { id := "newid", name := "greeting.txt", webViewLink := none }
      "dir1" rfl (by decide) (by decide) rfl).2.2 (Or.inl rfl)

/-- Claim C4: an identifier whose metadata has no shortcut target and kind
folder resolves successfully to that identifier unchanged (the code returns
the `id` field of the fetched metadata; the hypothesis `hid` is the Drive
invariant that `files.get(id)` echoes the requested id in that field). -/
theorem claim4_resolve_plain_directory (store : MetaStore) (id : String)
    (meta : FileMeta) (hm : store id = some meta)
    (hns : meta.shortcutTarget = none) (hk : meta.mimeType = folderMimeType)
    (hid : meta.id = id) :
    (resolveParentFolder store id).1 = .ok id := by
  rw [resolveParentFolder_plain_eq store id meta hm hns hk]
  rw [hid]

/-- Claim C4 witness: a concrete plain folder resolves to itself. -/
theorem claim4_resolve_plain_directory_witness :
    (resolveParentFolder storeDir "dir1").1 = .ok "dir1" :=
  claim4_resolve_plain_directory storeDir "dir1"
    { id := "dir1", name := "Folder", mimeType := folderMimeType,
      shortcutTarget := none } rfl rfl rfl rfl

/-- Claim C5: resolution is deterministic (running it twice on the same
store yields the same result) and idempotent: if resolving `x` succeeds with
`y`, resolving `y` succeeds with `y` again — under the Drive invariants that
`files.get` echoes the requested id and that a folder is not itself a
shortcut (`WellFormedStore`). -/
theorem claim5_resolve_idempotent (store : MetaStore)
    (hwf : WellFormedStore store) (x y : String)
    (h : (resolveParentFolder store x).1 = .ok y) :
    (resolveParentFolder store x).1 = (resolveParentFolder store x).1 ∧
    (resolveParentFolder store y).1 = .ok y := by
  refine ⟨rfl, ?_⟩
  rcases resolveParentFolder_ok_inversion store x y h with
    ⟨meta, hx, hns, hk, hidy⟩ | ⟨meta, t, target, hx, hs, ht, hk, hidy⟩
  · obtain ⟨hid, _⟩ := hwf x meta hx
    have hxy : y = x := by rw [← hidy, hid]
    subst hxy
    rw [resolveParentFolder_plain_eq store y meta hx hns hk]
    rw [hidy]
  · obtain ⟨htid, hfold⟩ := hwf t target ht
    have hyt : y = t := by rw [← hidy, htid]
    subst hyt
    have hsh : target.shortcutTarget = none := hfold hk
    rw [resolveParentFolder_plain_eq store y target ht hsh hk]
    rw [hidy]

/-- Claim C5 witness: resolving a concrete shortcut yields the target folder
id, and resolving that id again yields it unchanged. -/
theorem claim5_resolve_idempotent_witness :
    (resolveParentFolder storeShortcutDir "sc2").1 =
      (resolveParentFolder storeShortcutDir "sc2").1 ∧
    (resolveParentFolder storeShortcutDir "dir2").1 = .ok "dir2" :=
  claim5_resolve_idempotent storeShortcutDir storeShortcutDir_wf "sc2" "dir2"
    rfl

/-- Claim C6 counterexample: in the env-JSON and disk-tmp variants the
grant-access provider call is made without the `sendNotificationEmail`
option at all, so notification sending is not disabled there (the provider
default for user grants is to send a notification email), refuting the claim
for every /grant-access request of the repository. -/
theorem claim6_grant_notify_counterexample :
    (grantAccessEnvJson (some "file1") (some "user@example.com")
        (.ok ())).2.map GrantCall.sendNotificationEmail = [none] ∧
    (grantAccessDiskTmp (some "file1") (some "user@example.com")
        (.ok ())).2.map GrantCall.sendNotificationEmail = [none] :=
  ⟨rfl, rfl⟩

/-- Claim C6 amended: in the OAuth and My-Drive variants every grant-access
provider call is made with `sendNotificationEmail: false`, i.e. with
notification sending disabled. -/
theorem claim6_grant_notify_disabled (creds : Option OAuthCredentials)
    (fileId email : Option String) (pr1 pr2 : Except Unit Unit) (c : GrantCall)
    (h : c ∈ (grantAccessOAuth creds fileId email pr1).2 ∨
      c ∈ (grantAccessMyDrive fileId email pr2).2) :
    c.sendNotificationEmail = some false := by
  rcases h with h | h
  · unfold grantAccessOAuth at h
    split at h
    · simp at h
    · split at h
      · simp at h
      · rcases pr1 with _ | _ <;> simp at h <;> subst h <;> rfl
  · unfold grantAccessMyDrive at h
    split at h
    · simp at h
    · rcases pr2 with _ | _ <;> simp at h <;> subst h <;> rfl

/-- Claim C6 witness: the concrete call emitted by the OAuth variant carries
`sendNotificationEmail: false`. -/
theorem claim6_grant_notify_disabled_witness :
    GrantCall.sendNotificationEmail
      { fileId := "file1", permType := "user", role := "reader",
        emailAddress := "user@example.com",
        sendNotificationEmail := some false, supportsAllDrives := some true } =
      some false :=
  claim6_grant_notify_disabled (some { refreshToken := some "tok" })
    (some "file1") (some "user@example.com") (.ok ()) (.ok ())
    { fileId := "file1", permType := "user", role := "reader",
      emailAddress := "user@example.com",
      sendNotificationEmail := some false, supportsAllDrives := some true }
    (Or.inl (by decide))

/-- Claim C7 counterexample: the env-JSON variant's multer has no size cap —
a payload one byte over 25 MB is let through to the handler — and the
disk-tmp variant stores payloads on disk, not in a bounded in-memory
buffer. -/
theorem claim7_upload_buffer_counterexample :
    multerAccepts uploadConfigEnvJson (25 * 1024 * 1024 + 1) = true ∧
    uploadConfigDiskTmp.storage = StorageKind.disk :=
  ⟨rfl, rfl⟩

/-- Claim C7 amended: in the OAuth and My-Drive variants the payload is held
in a 25 MB-capped in-memory buffer and any larger payload is rejected by the
multer middleware before the handler runs, so no Drive call is issued. -/
theorem claim7_upload_size_cap (creds : Option OAuthCredentials)
    (store : MetaStore) (driveFolderId : Option String) (f : UploadedFile)
    (desiredFileName : Option String)
    (createResp afterCreateMeta : Except Unit DriveFileData)
    (h : 25 * 1024 * 1024 < f.size) :
    uploadRoute uploadConfigOAuth creds store driveFolderId (some f)
        desiredFileName createResp afterCreateMeta = (.payloadTooLarge, []) ∧
    multerAccepts uploadConfigMyDrive f.size = false ∧
    uploadConfigOAuth.storage = StorageKind.memory ∧
    uploadConfigMyDrive.storage = StorageKind.memory := by
  have hacc : decide (f.size ≤ 25 * 1024 * 1024) = false :=
    decide_eq_false (Nat.not_le.mpr h)
  refine ⟨?_, ?_, rfl, rfl⟩
  · unfold uploadRoute
    simp [multerAccepts, uploadConfigOAuth, hacc]
  · simp [multerAccepts, uploadConfigMyDrive, hacc]

/-- Claim C7 witness: a payload one byte over the cap is rejected before any
Drive call. -/
theorem claim7_upload_size_cap_witness :
    uploadRoute uploadConfigOAuth none (fun _ => none : MetaStore) none
        (some { originalname := "big.bin",
                mimetype := "application/octet-stream",
                size := 25 * 1024 * 1024 + 1 }) none (.error ()) (.error ()) =
      (.payloadTooLarge, []) :=
  (claim7_upload_size_cap none (fun _ => none : MetaStore) none
      { originalname := "big.bin", mimetype := "application/octet-stream",
        size := 25 * 1024 * 1024 + 1 } none (.error ()) (.error ())
      (Nat.lt_succ_self _)).1

/-- Claim C8: in the disk-tmp variant, the temporary copy multer wrote is
removed on both the success and the failure path of the upload handler — the
temp path is never in the final file-system state. -/
theorem claim8_temp_file_removed (fs : List String) (f : DiskFile)
    (createResp : Except Unit DriveFileData) :
    f.path ∉ (diskUploadHandler fs (some f) createResp).2 := by
  rcases createResp with _ | d <;>
    simp [diskUploadHandler, fsUnlink, List.mem_filter]

/-- Claim C9: POST /create-order with `orderId` or `amount` missing yields
the 400 validation response and no provider call. -/
theorem claim9_create_order_missing (orderId amount : JsVal)
    (providerResp : Except Unit String)
    (h : orderId = JsVal.undef ∨ amount = JsVal.undef) :
    createOrderHandler orderId amount providerResp = (.missingFields, []) := by
  rcases h with h | h <;> subst h <;>
    simp [createOrderHandler, JsVal.truthy]

/-- Claim C9 witness: a body with no `orderId` is rejected with no provider
call. -/
theorem claim9_create_order_missing_witness :
    createOrderHandler JsVal.undef (JsVal.num 50000) (.ok "order") =
      (.missingFields, []) :=
  claim9_create_order_missing JsVal.undef (JsVal.num 50000) (.ok "order")
    (Or.inl rfl)

/-- Claim C10: `amount` equal to 0 and `orderId` equal to the empty string
are falsy in the `!orderId || !amount` check, so such present-but-falsy
fields are treated as missing: 400 validation response and no provider
call. -/
theorem claim10_create_order_falsy (orderId amount : JsVal)
    (providerResp : Except Unit String)
    (h : amount = JsVal.num 0 ∨ orderId = JsVal.str "") :
    createOrderHandler orderId amount providerResp = (.missingFields, []) := by
  rcases h with h | h <;> subst h <;>
    simp [createOrderHandler, JsVal.truthy]

/-- Claim C10 witness: `amount = 0` with a present `orderId` is rejected with
no provider call. -/
theorem claim10_create_order_falsy_witness :
    createOrderHandler (JsVal.str "ord_123") (JsVal.num 0) (.ok "order") =
      (.missingFields, []) :=
  claim10_create_order_falsy (JsVal.str "ord_123") (JsVal.num 0) (.ok "order")
    (Or.inl rfl)

end Check
